import Mathlib

/-!
Verification of the statistical calculation engine of the Statistics
repository: a shallow embedding over exact rationals of the calculator
components (descriptive statistics, normal distribution, confidence
intervals, hypothesis testing).

Numeric values are modelled as `ℚ`.  The external numeric routines the
source calls — `math.sqrt`, `scipy.stats.norm.cdf/ppf` and
`scipy.stats.t.cdf/ppf` — are abstracted as function parameters
(`sqrt`, `normCdf`, `normPpf`, `tCdf`, `tPpf`); theorems that depend on
their analytic properties state those properties as hypotheses.
String-valued presentation fields (`steps`, `formula`, hypothesis texts,
interpretations) are omitted from the embedded result records: no claim
concerns them.  Warnings are kept as `Option String` since claims are
about their presence.
-/

/-- Tail type of a hypothesis test: `two-tailed`, `left-tailed` or
`right-tailed`. -/
inductive TestType where
  | twoTailed
  | leftTailed
  | rightTailed
deriving DecidableEq, Repr

/-- Which distribution a mean procedure used: `"z"` or `"t"`. -/
inductive DistType where
  | z
  | t
deriving DecidableEq, Repr

/-! ## NormalDistribution (src/classes/hypothesis_testing.py) -/

/-- The `NormalDistribution` class: `__init__` stores `(mean, std_dev)`
with no validation. -/
structure NormalDistribution where
  mean : ℚ
  std_dev : ℚ
deriving DecidableEq, Repr

/-- `NormalDistribution.__init__(mean, std_dev)`: assigns the two fields
and nothing else (lines 13–22 of the source). -/
def NormalDistribution.init (mean : ℚ) (std_dev : ℚ) : NormalDistribution :=
  { mean := mean, std_dev := std_dev }

/-- Result of `calculate_z_score`. -/
structure ZScoreResult where
  z_score : ℚ
  interpretation : String
deriving DecidableEq, Repr

/-- `NormalDistribution.calculate_z_score(x_value)`. -/
def NormalDistribution.calculate_z_score (nd : NormalDistribution)
    (x_value : ℚ) : ZScoreResult :=
  let z_score := (x_value - nd.mean) / nd.std_dev
  { z_score := z_score
    interpretation :=
      if |z_score| < 1 then
        ("Within 1 standard deviation of the mean (common)")
      else if |z_score| < 2 then
        ("Within 2 standard deviations of the mean (fairly common)")
      else if |z_score| < 3 then
        ("Within 3 standard deviations of the mean (uncommon)")
      else
        ("More than 3 standard deviations from the mean (very rare)") }

/-- Comparison argument of `calculate_probability`. -/
inductive Comparison where
  | less_than
  | greater_than
  | equal_to
deriving DecidableEq, Repr

/-- Result of `calculate_probability`. -/
structure ProbabilityResult where
  probability : ℚ
  z_score : ℚ
  percentage : ℚ
deriving DecidableEq, Repr

/-- `NormalDistribution.calculate_probability(x_value, comparison)`:
`less_than` returns `cdf z`, `greater_than` returns `1 - cdf z`, and the
final `else` branch (which receives `equal_to`) returns `cdf z` again. -/
def NormalDistribution.calculate_probability (nd : NormalDistribution)
    (normCdf : ℚ → ℚ) (x_value : ℚ) (comparison : Comparison) :
    ProbabilityResult :=
  let z_score := (x_value - nd.mean) / nd.std_dev
  let probability :=
    match comparison with
    | .less_than => normCdf z_score
    | .greater_than => 1 - normCdf z_score
    | .equal_to => normCdf z_score
  { probability := probability
    z_score := z_score
    percentage := probability * 100 }

/-! ## DescriptiveStats (src/api/statistics/descriptive_stats.py) -/

/-- Mean of a dataset, `np.mean(self.data)` = sum / n. -/
def dataMean (data : List ℚ) : ℚ :=
  data.sum / (data.length : ℚ)

/-- The list of squared deviations from the mean,
`(self.data - mean_value) ** 2`. -/
def squaredDeviations (data : List ℚ) : List ℚ :=
  data.map (fun x => (x - dataMean data) ^ 2)

/-- Dispersion measures returned by `_calculate_dispersion` (numeric
values; the std-dev fields apply the abstracted `sqrt`). -/
structure DispersionResult where
  sample_variance : ℚ
  sample_std_dev : ℚ
  population_variance : ℚ
  population_std_dev : ℚ
deriving DecidableEq, Repr

/-- `DescriptiveStats._calculate_dispersion`: sample variance is
`np.var(data, ddof=1)` = Σ(x−x̄)²/(n−1); population variance is
`np.var(data, ddof=0)` = Σ(x−x̄)²/n. -/
def calculate_dispersion (sqrt : ℚ → ℚ) (data : List ℚ) : DispersionResult :=
  let sample_var := (squaredDeviations data).sum / ((data.length : ℚ) - 1)
  let pop_var := (squaredDeviations data).sum / (data.length : ℚ)
  { sample_variance := sample_var
    sample_std_dev := sqrt sample_var
    population_variance := pop_var
    population_std_dev := sqrt pop_var }

/-! ## HypothesisTesting (src/api/statistics/hypothesis_testing.py) -/

/-- Result record of `one_sample_mean_test` (numeric fields). -/
structure MeanTestResult where
  test_statistic : ℚ
  critical_values : List ℚ
  p_value : ℚ
  alpha : ℚ
  reject_null : Bool
  distribution_type : DistType
  degrees_of_freedom : Option ℚ
  standard_error : ℚ
  test_type : TestType
deriving DecidableEq, Repr

/-- `HypothesisTesting.one_sample_mean_test`: z-test when
`population_std` is supplied (`if population_std is not None`), else
t-test with `df = n - 1` when `sample_std` is supplied, else
`raise ValueError`.  Critical values, p-value and the rejection decision
follow the tail type exactly as in the source. -/
def one_sample_mean_test (sqrt normCdf normPpf : ℚ → ℚ)
    (tCdf tPpf : ℚ → ℚ → ℚ)
    (sample_mean : ℚ) (sample_size : ℕ) (null_mean : ℚ) (alpha : ℚ)
    (test_type : TestType)
    (population_std : Option ℚ) (sample_std : Option ℚ) :
    Except String MeanTestResult :=
  match population_std with
  | some sigma =>
    let std_error := sigma / sqrt (sample_size : ℚ)
    let test_stat := (sample_mean - null_mean) / std_error
    let cHi := normPpf (1 - alpha / 2)
    let critical_values :=
      match test_type with
      | .twoTailed => [-cHi, cHi]
      | .leftTailed => [normPpf alpha]
      | .rightTailed => [normPpf (1 - alpha)]
    let p_value :=
      match test_type with
      | .twoTailed => 2 * (1 - normCdf |test_stat|)
      | .leftTailed => normCdf test_stat
      | .rightTailed => 1 - normCdf test_stat
    let reject_null :=
      match test_type with
      | .twoTailed => decide (|test_stat| > |cHi|)
      | .leftTailed => decide (test_stat < normPpf alpha)
      | .rightTailed => decide (test_stat > normPpf (1 - alpha))
    .ok
      { test_statistic := test_stat
        critical_values := critical_values
        p_value := p_value
        alpha := alpha
        reject_null := reject_null
        distribution_type := .z
        degrees_of_freedom := none
        standard_error := std_error
        test_type := test_type }
  | none =>
    match sample_std with
    | none => .error ("Either population_std or sample_std must be provided")
    | some s =>
      let df := (sample_size : ℚ) - 1
      let std_error := s / sqrt (sample_size : ℚ)
      let test_stat := (sample_mean - null_mean) / std_error
      let cHi := tPpf (1 - alpha / 2) df
      let critical_values :=
        match test_type with
        | .twoTailed => [-cHi, cHi]
        | .leftTailed => [tPpf alpha df]
        | .rightTailed => [tPpf (1 - alpha) df]
      let p_value :=
        match test_type with
        | .twoTailed => 2 * (1 - tCdf |test_stat| df)
        | .leftTailed => tCdf test_stat df
        | .rightTailed => 1 - tCdf test_stat df
      let reject_null :=
        match test_type with
        | .twoTailed => decide (|test_stat| > |cHi|)
        | .leftTailed => decide (test_stat < tPpf alpha df)
        | .rightTailed => decide (test_stat > tPpf (1 - alpha) df)
      .ok
        { test_statistic := test_stat
          critical_values := critical_values
          p_value := p_value
          alpha := alpha
          reject_null := reject_null
          distribution_type := .t
          degrees_of_freedom := some df
          standard_error := std_error
          test_type := test_type }

/-- Result record of `two_sample_mean_test` (numeric fields). -/
structure TwoMeanTestResult where
  test_statistic : ℚ
  critical_values : List ℚ
  p_value : ℚ
  alpha : ℚ
  reject_null : Bool
  degrees_of_freedom : ℚ
  standard_error : ℚ
  test_type : TestType
  equal_variances : Bool
  pooled_variance : Option ℚ
deriving DecidableEq, Repr

/-- `HypothesisTesting.two_sample_mean_test`: pooled-variance t-test when
`equal_variances`, else Welch's t-test with the Welch–Satterthwaite
degrees of freedom.  The `pooled_variance` result field is the Python
conditional expression `pooled_var if equal_variances else None`, whose
`pooled_var` operand is evaluated only when `equal_variances` is true. -/
def two_sample_mean_test (sqrt : ℚ → ℚ) (tCdf tPpf : ℚ → ℚ → ℚ)
    (sample1_mean : ℚ) (sample1_size : ℕ) (sample1_std : ℚ)
    (sample2_mean : ℚ) (sample2_size : ℕ) (sample2_std : ℚ)
    (alpha : ℚ) (test_type : TestType) (equal_variances : Bool) :
    TwoMeanTestResult :=
  let n1 : ℚ := (sample1_size : ℚ)
  let n2 : ℚ := (sample2_size : ℚ)
  let pooled_var :=
    ((n1 - 1) * sample1_std ^ 2 + (n2 - 1) * sample2_std ^ 2) / (n1 + n2 - 2)
  let std_error :=
    if equal_variances then
      sqrt pooled_var * sqrt (1 / n1 + 1 / n2)
    else
      sqrt (sample1_std ^ 2 / n1 + sample2_std ^ 2 / n2)
  let df :=
    if equal_variances then
      n1 + n2 - 2
    else
      (sample1_std ^ 2 / n1 + sample2_std ^ 2 / n2) ^ 2 /
        ((sample1_std ^ 2 / n1) ^ 2 / (n1 - 1) +
          (sample2_std ^ 2 / n2) ^ 2 / (n2 - 1))
  let t_stat := (sample1_mean - sample2_mean) / std_error
  let cHi := tPpf (1 - alpha / 2) df
  let critical_values :=
    match test_type with
    | .twoTailed => [-cHi, cHi]
    | .leftTailed => [tPpf alpha df]
    | .rightTailed => [tPpf (1 - alpha) df]
  let p_value :=
    match test_type with
    | .twoTailed => 2 * (1 - tCdf |t_stat| df)
    | .leftTailed => tCdf t_stat df
    | .rightTailed => 1 - tCdf t_stat df
  let reject_null :=
    match test_type with
    | .twoTailed => decide (|t_stat| > |cHi|)
    | .leftTailed => decide (t_stat < tPpf alpha df)
    | .rightTailed => decide (t_stat > tPpf (1 - alpha) df)
  { test_statistic := t_stat
    critical_values := critical_values
    p_value := p_value
    alpha := alpha
    reject_null := reject_null
    degrees_of_freedom := df
    standard_error := std_error
    test_type := test_type
    equal_variances := equal_variances
    pooled_variance := if equal_variances then some pooled_var else none }

/-- Result record of `one_sample_proportion_test` (numeric fields and
the warning). -/
structure PropTestResult where
  test_statistic : ℚ
  critical_values : List ℚ
  p_value : ℚ
  alpha : ℚ
  reject_null : Bool
  standard_error : ℚ
  test_type : TestType
  sample_proportion : ℚ
  sample_size : ℕ
  null_proportion : ℚ
  warning : Option String
deriving DecidableEq, Repr

/-- `HypothesisTesting.one_sample_proportion_test`: always z-based; the
standard error uses the null proportion, `SE = sqrt(p0*(1-p0)/n)`; a
warning is set when `n*p0 < 5 or n*(1-p0) < 5`. -/
def one_sample_proportion_test (sqrt normCdf normPpf : ℚ → ℚ)
    (sample_proportion : ℚ) (sample_size : ℕ) (null_proportion : ℚ)
    (alpha : ℚ) (test_type : TestType) : PropTestResult :=
  let np0 := (sample_size : ℚ) * null_proportion
  let nq0 := (sample_size : ℚ) * (1 - null_proportion)
  let warning : Option String :=
    if np0 < 5 ∨ nq0 < 5 then
      some ("Warning: Normal approximation may not be appropriate. Both should be >= 5.")
    else
      none
  let std_error := sqrt (null_proportion * (1 - null_proportion) / (sample_size : ℚ))
  let z_stat := (sample_proportion - null_proportion) / std_error
  let cHi := normPpf (1 - alpha / 2)
  let critical_values :=
    match test_type with
    | .twoTailed => [-cHi, cHi]
    | .leftTailed => [normPpf alpha]
    | .rightTailed => [normPpf (1 - alpha)]
  let p_value :=
    match test_type with
    | .twoTailed => 2 * (1 - normCdf |z_stat|)
    | .leftTailed => normCdf z_stat
    | .rightTailed => 1 - normCdf z_stat
  let reject_null :=
    match test_type with
    | .twoTailed => decide (|z_stat| > |cHi|)
    | .leftTailed => decide (z_stat < normPpf alpha)
    | .rightTailed => decide (z_stat > normPpf (1 - alpha))
  { test_statistic := z_stat
    critical_values := critical_values
    p_value := p_value
    alpha := alpha
    reject_null := reject_null
    standard_error := std_error
    test_type := test_type
    sample_proportion := sample_proportion
    sample_size := sample_size
    null_proportion := null_proportion
    warning := warning }

/-- Result record of `two_sample_proportion_test` (numeric fields and
the warning). -/
structure TwoPropTestResult where
  test_statistic : ℚ
  critical_values : List ℚ
  p_value : ℚ
  alpha : ℚ
  reject_null : Bool
  standard_error : ℚ
  test_type : TestType
  sample1_proportion : ℚ
  sample2_proportion : ℚ
  pooled_proportion : ℚ
  warning : Option String
deriving DecidableEq, Repr

/-- `HypothesisTesting.two_sample_proportion_test`: pooled proportion
`(x1+x2)/(n1+n2)`, z statistic against the pooled standard error, and a
warning when any of the four `n*p`, `n*q` products is below 5. -/
def two_sample_proportion_test (sqrt normCdf normPpf : ℚ → ℚ)
    (sample1_successes : ℕ) (sample1_size : ℕ)
    (sample2_successes : ℕ) (sample2_size : ℕ)
    (alpha : ℚ) (test_type : TestType) : TwoPropTestResult :=
  let n1 : ℚ := (sample1_size : ℚ)
  let n2 : ℚ := (sample2_size : ℚ)
  let p1_hat := (sample1_successes : ℚ) / n1
  let p2_hat := (sample2_successes : ℚ) / n2
  let p_pooled := ((sample1_successes : ℚ) + (sample2_successes : ℚ)) / (n1 + n2)
  let q_pooled := 1 - p_pooled
  let conditionsOk : Bool :=
    decide (n1 * p_pooled ≥ 5) && decide (n1 * q_pooled ≥ 5) &&
      decide (n2 * p_pooled ≥ 5) && decide (n2 * q_pooled ≥ 5)
  let warning : Option String :=
    if conditionsOk then
      none
    else
      some ("Warning: Normal approximation conditions not met.")
  let std_error := sqrt (p_pooled * q_pooled * (1 / n1 + 1 / n2))
  let z_stat := (p1_hat - p2_hat) / std_error
  let cHi := normPpf (1 - alpha / 2)
  let critical_values :=
    match test_type with
    | .twoTailed => [-cHi, cHi]
    | .leftTailed => [normPpf alpha]
    | .rightTailed => [normPpf (1 - alpha)]
  let p_value :=
    match test_type with
    | .twoTailed => 2 * (1 - normCdf |z_stat|)
    | .leftTailed => normCdf z_stat
    | .rightTailed => 1 - normCdf z_stat
  let reject_null :=
    match test_type with
    | .twoTailed => decide (|z_stat| > |cHi|)
    | .leftTailed => decide (z_stat < normPpf alpha)
    | .rightTailed => decide (z_stat > normPpf (1 - alpha))
  { test_statistic := z_stat
    critical_values := critical_values
    p_value := p_value
    alpha := alpha
    reject_null := reject_null
    standard_error := std_error
    test_type := test_type
    sample1_proportion := p1_hat
    sample2_proportion := p2_hat
    pooled_proportion := p_pooled
    warning := warning }

/-! ## ConfidenceIntervals (src/api/statistics/confidence_intervals.py) -/

/-- Result record of `mean_confidence_interval` (numeric fields). -/
structure MeanCIResult where
  confidence_interval : ℚ × ℚ
  lower_bound : ℚ
  upper_bound : ℚ
  margin_of_error : ℚ
  critical_value : ℚ
  standard_error : ℚ
  distribution_type : DistType
  degrees_of_freedom : Option ℚ
  confidence_level : ℚ
deriving DecidableEq, Repr

/-- `ConfidenceIntervals.mean_confidence_interval`: z-distribution when
`population_std` is supplied, else t-distribution with `df = n - 1` when
`sample_std` is supplied, else `raise ValueError`.  Interval is
`sample_mean ± critical * std_error`. -/
def mean_confidence_interval (sqrt normPpf : ℚ → ℚ) (tPpf : ℚ → ℚ → ℚ)
    (sample_mean : ℚ) (sample_size : ℕ) (confidence_level : ℚ)
    (population_std : Option ℚ) (sample_std : Option ℚ) :
    Except String MeanCIResult :=
  let alpha := 1 - confidence_level
  let alpha_half := alpha / 2
  match population_std with
  | some sigma =>
    let critical_value := normPpf (1 - alpha_half)
    let std_error := sigma / sqrt (sample_size : ℚ)
    let margin_error := critical_value * std_error
    let lower_bound := sample_mean - margin_error
    let upper_bound := sample_mean + margin_error
    .ok
      { confidence_interval := (lower_bound, upper_bound)
        lower_bound := lower_bound
        upper_bound := upper_bound
        margin_of_error := margin_error
        critical_value := critical_value
        standard_error := std_error
        distribution_type := .z
        degrees_of_freedom := none
        confidence_level := confidence_level }
  | none =>
    match sample_std with
    | none => .error ("Either population_std or sample_std must be provided")
    | some s =>
      let df := (sample_size : ℚ) - 1
      let critical_value := tPpf (1 - alpha_half) df
      let std_error := s / sqrt (sample_size : ℚ)
      let margin_error := critical_value * std_error
      let lower_bound := sample_mean - margin_error
      let upper_bound := sample_mean + margin_error
      .ok
        { confidence_interval := (lower_bound, upper_bound)
          lower_bound := lower_bound
          upper_bound := upper_bound
          margin_of_error := margin_error
          critical_value := critical_value
          standard_error := std_error
          distribution_type := .t
          degrees_of_freedom := some df
          confidence_level := confidence_level }

/-- Result record of `proportion_confidence_interval` (numeric fields
and the warning). -/
structure PropCIResult where
  confidence_interval : ℚ × ℚ
  lower_bound : ℚ
  upper_bound : ℚ
  margin_of_error : ℚ
  critical_value : ℚ
  standard_error : ℚ
  confidence_level : ℚ
  sample_proportion : ℚ
  sample_size : ℕ
  warning : Option String
deriving DecidableEq, Repr

/-- `ConfidenceIntervals.proportion_confidence_interval`: always
z-based, `SE = sqrt(p*(1-p)/n)`, raw bounds `p ± z*SE` and then
`lower_bound = max(0, lower_bound)`, `upper_bound = min(1, upper_bound)`
(the clamp to `[0, 1]`). -/
def proportion_confidence_interval (sqrt normPpf : ℚ → ℚ)
    (sample_proportion : ℚ) (sample_size : ℕ) (confidence_level : ℚ) :
    PropCIResult :=
  let alpha := 1 - confidence_level
  let alpha_half := alpha / 2
  let np_hat := (sample_size : ℚ) * sample_proportion
  let nq_hat := (sample_size : ℚ) * (1 - sample_proportion)
  let warning : Option String :=
    if np_hat < 5 ∨ nq_hat < 5 then
      some ("Warning: Normal approximation may not be appropriate. Both should be >= 5.")
    else
      none
  let z_critical := normPpf (1 - alpha_half)
  let std_error := sqrt (sample_proportion * (1 - sample_proportion) / (sample_size : ℚ))
  let margin_error := z_critical * std_error
  let lower_raw := sample_proportion - margin_error
  let upper_raw := sample_proportion + margin_error
  let lower_bound := max 0 lower_raw
  let upper_bound := min 1 upper_raw
  { confidence_interval := (lower_bound, upper_bound)
    lower_bound := lower_bound
    upper_bound := upper_bound
    margin_of_error := margin_error
    critical_value := z_critical
    standard_error := std_error
    confidence_level := confidence_level
    sample_proportion := sample_proportion
    sample_size := sample_size
    warning := warning }

/-- Result record of `sample_size_for_proportion` (numeric fields). -/
structure SampleSizePropResult where
  sample_size_exact : ℚ
  sample_size_required : ℤ
  margin_error : ℚ
  confidence_level : ℚ
  critical_value : ℚ
  estimated_proportion : ℚ
  conservative_estimate : Bool
deriving DecidableEq, Repr

/-- `ConfidenceIntervals.sample_size_for_proportion`: uses `p = 0.5`
(conservative) when no prior estimate is given;
`n_exact = z^2 * p * (1-p) / ME^2` and `n_required = ceil(n_exact)`. -/
def sample_size_for_proportion (normPpf : ℚ → ℚ)
    (margin_error : ℚ) (confidence_level : ℚ)
    (estimated_proportion : Option ℚ) : SampleSizePropResult :=
  let alpha := 1 - confidence_level
  let z_critical := normPpf (1 - alpha / 2)
  let p_estimate :=
    match estimated_proportion with
    | none => (1 : ℚ) / 2
    | some p => p
  let conservative :=
    match estimated_proportion with
    | none => true
    | some _ => false
  let n_exact := (z_critical ^ 2 * p_estimate * (1 - p_estimate)) / margin_error ^ 2
  let n_required : ℤ := ⌈n_exact⌉
  { sample_size_exact := n_exact
    sample_size_required := n_required
    margin_error := margin_error
    confidence_level := confidence_level
    critical_value := z_critical
    estimated_proportion := p_estimate
    conservative_estimate := conservative }




/-! ## Theorems -/

/-- Two-tailed decision consistency for a generic table: when `cdf` is
strictly monotone and inverts the critical value back to `1 - alpha/2`,
exceeding the critical value in absolute value is the same as the
doubled tail probability being below `alpha`. -/
theorem two_tailed_decision_iff (cdf : ℚ → ℚ) (stat c alpha : ℚ)
    (hmono : StrictMono cdf) (hc : cdf |c| = 1 - alpha / 2) :
    |stat| > |c| ↔ 2 * (1 - cdf |stat|) < alpha := by
  constructor
  · intro h
    have hlt : cdf |c| < cdf |stat| := hmono h
    rw [hc] at hlt
    linarith
  · intro h
    have h2 : cdf |c| < cdf |stat| := by rw [hc]; linarith
    exact hmono.lt_iff_lt.mp h2

/-- C1: with valid inputs (`alpha` in `(0,1)`, positive `sample_size`),
`one_sample_mean_test` performs a z-test with standard error
`population_std / sqrt n` when `population_std` is supplied, else a
t-test with `df = n - 1` when `sample_std` is supplied, fails when
neither is supplied, and the returned result's `test_statistic` is
`(sample_mean - null_mean) / SE`. -/
theorem C1_one_sample_mean_test_dispatch
    (sqrt normCdf normPpf : ℚ → ℚ) (tCdf tPpf : ℚ → ℚ → ℚ)
    (m : ℚ) (n : ℕ) (mu0 alpha sigma s : ℚ) (sstd : Option ℚ)
    (tt : TestType)
    (halpha0 : 0 < alpha) (halpha1 : alpha < 1) (hn : 0 < n) :
    (∃ r, one_sample_mean_test sqrt normCdf normPpf tCdf tPpf
        m n mu0 alpha tt (some sigma) sstd = .ok r ∧
      r.distribution_type = .z ∧
      r.standard_error = sigma / sqrt (n : ℚ) ∧
      r.test_statistic = (m - mu0) / (sigma / sqrt (n : ℚ)) ∧
      r.degrees_of_freedom = none ∧
      r.alpha = alpha) ∧
    (∃ r, one_sample_mean_test sqrt normCdf normPpf tCdf tPpf
        m n mu0 alpha tt none (some s) = .ok r ∧
      r.distribution_type = .t ∧
      r.standard_error = s / sqrt (n : ℚ) ∧
      r.test_statistic = (m - mu0) / (s / sqrt (n : ℚ)) ∧
      r.degrees_of_freedom = some ((n : ℚ) - 1) ∧
      r.alpha = alpha) ∧
    one_sample_mean_test sqrt normCdf normPpf tCdf tPpf
        m n mu0 alpha tt none none
      = .error ("Either population_std or sample_std must be provided") :=
  ⟨⟨_, rfl, rfl, rfl, rfl, rfl, rfl⟩, ⟨_, rfl, rfl, rfl, rfl, rfl, rfl⟩, rfl⟩

/-- Witness for C1: the spec scenario `sample_mean = 105`, `n = 36`,
`null_mean = 100`, `alpha = 0.05`, two-tailed, with `sigma = 15` on the
z path and `s = 15` on the t path. -/
theorem C1_witness :
    (0 < (1/20 : ℚ)) ∧ ((1/20 : ℚ) < 1) ∧ (0 < 36) ∧
    ((∃ r, one_sample_mean_test (fun _ => 6) (fun x => x) (fun x => x)
        (fun x _ => x) (fun q _ => q)
        105 36 100 (1/20) .twoTailed (some 15) none = .ok r ∧
      r.distribution_type = .z ∧
      r.standard_error = 15 / (fun _ => (6 : ℚ)) ((36 : ℕ) : ℚ) ∧
      r.test_statistic = (105 - 100) / (15 / (fun _ => (6 : ℚ)) ((36 : ℕ) : ℚ)) ∧
      r.degrees_of_freedom = none ∧
      r.alpha = 1/20) ∧
    (∃ r, one_sample_mean_test (fun _ => 6) (fun x => x) (fun x => x)
        (fun x _ => x) (fun q _ => q)
        105 36 100 (1/20) .twoTailed none (some 15) = .ok r ∧
      r.distribution_type = .t ∧
      r.standard_error = 15 / (fun _ => (6 : ℚ)) ((36 : ℕ) : ℚ) ∧
      r.test_statistic = (105 - 100) / (15 / (fun _ => (6 : ℚ)) ((36 : ℕ) : ℚ)) ∧
      r.degrees_of_freedom = some (((36 : ℕ) : ℚ) - 1) ∧
      r.alpha = 1/20) ∧
    one_sample_mean_test (fun _ => 6) (fun x => x) (fun x => x)
        (fun x _ => x) (fun q _ => q)
        105 36 100 (1/20) .twoTailed none none
      = .error ("Either population_std or sample_std must be provided")) :=
  ⟨by norm_num, by norm_num, by norm_num,
    C1_one_sample_mean_test_dispatch (fun _ => 6) (fun x => x) (fun x => x)
      (fun x _ => x) (fun q _ => q) 105 36 100 (1/20) 15 15 none .twoTailed
      (by norm_num) (by norm_num) (by norm_num)⟩

/-- C2 counterexample: a concrete Welch call (`equal_variances = False`)
of `two_sample_mean_test` returns a fully-formed result — it does not
fail.  The `pooled_var` occurrence in the result construction sits in a
conditional expression whose `pooled_var` operand is not evaluated on
this path, so no undefined-variable error can occur. -/
theorem C2_counterexample :
    two_sample_mean_test (fun _ => 1) (fun _ _ => 0) (fun _ _ => 0)
        1 2 1 0 2 1 (1/20) .twoTailed false =
      { test_statistic := 1
        critical_values := [0, 0]
        p_value := 2
        alpha := 1/20
        reject_null := true
        degrees_of_freedom := 2
        standard_error := 1
        test_type := .twoTailed
        equal_variances := false
        pooled_variance := none } := by
  simp only [two_sample_mean_test]
  norm_num

/-- C2 amended: with `equal_variances = False`, `two_sample_mean_test`
always returns a result whose `pooled_variance` field is `None`; the
`pooled_var` reference in the result construction is guarded by the
conditional expression and the Welch path never fails. -/
theorem C2_welch_returns_result
    (sqrt : ℚ → ℚ) (tCdf tPpf : ℚ → ℚ → ℚ)
    (m1 : ℚ) (n1 : ℕ) (s1 m2 : ℚ) (n2 : ℕ) (s2 alpha : ℚ)
    (tt : TestType) :
    (two_sample_mean_test sqrt tCdf tPpf m1 n1 s1 m2 n2 s2 alpha
        tt false).pooled_variance = none ∧
    (two_sample_mean_test sqrt tCdf tPpf m1 n1 s1 m2 n2 s2 alpha
        tt false).equal_variances = false :=
  ⟨rfl, rfl⟩

/-- C4 counterexample: constructing `NormalDistribution` with
`std_dev = -1 ≤ 0` does not fail: `__init__` stores the fields
unchecked, and the instance is usable (`calculate_z_score` runs on
it). -/
theorem C4_counterexample :
    NormalDistribution.init 0 (-1) = { mean := 0, std_dev := -1 } ∧
    ((NormalDistribution.init 0 (-1)).calculate_z_score 2).z_score = -2 := by
  refine ⟨rfl, ?_⟩
  show ((2 : ℚ) - 0) / (-1) = -2
  norm_num

/-- C4 amended: `NormalDistribution.__init__` performs no validation:
for every `(mean, std_dev)` with `std_dev ≤ 0`, construction succeeds,
stores the parameters as given, and yields an instance on which
`calculate_z_score` computes `(x - mean) / std_dev`. -/
theorem C4_construction_never_fails (mean std_dev : ℚ)
    (h : std_dev ≤ 0) :
    (NormalDistribution.init mean std_dev).mean = mean ∧
    (NormalDistribution.init mean std_dev).std_dev = std_dev ∧
    ∀ x, ((NormalDistribution.init mean std_dev).calculate_z_score x).z_score
      = (x - mean) / std_dev :=
  ⟨rfl, rfl, fun _ => rfl⟩

/-- Witness for C4 amended at `mean = 0`, `std_dev = -1`. -/
theorem C4_witness :
    ((-1 : ℚ) ≤ 0) ∧
    ((NormalDistribution.init 0 (-1)).mean = 0 ∧
     (NormalDistribution.init 0 (-1)).std_dev = -1 ∧
     ∀ x, ((NormalDistribution.init 0 (-1)).calculate_z_score x).z_score
       = (x - 0) / (-1)) :=
  ⟨by norm_num, C4_construction_never_fails 0 (-1) (by norm_num)⟩

/-- C7: `calculate_probability` with `equal_to` returns exactly the CDF
value at `x` — the same probability as `less_than` — rather than 0. -/
theorem C7_equal_to_is_cdf (normCdf : ℚ → ℚ) (nd : NormalDistribution)
    (x : ℚ) :
    (nd.calculate_probability normCdf x .equal_to).probability
        = normCdf ((x - nd.mean) / nd.std_dev) ∧
    (nd.calculate_probability normCdf x .equal_to).probability
        = (nd.calculate_probability normCdf x .less_than).probability :=
  ⟨rfl, rfl⟩

/-- C5: `one_sample_proportion_test` computes its standard error under
the null proportion, `SE = sqrt(p0*(1-p0)/n)` — independent of the
sample proportion — the test statistic is `(p_hat - p0) / SE`, and the
result carries a warning exactly when `n*p0 < 5` or `n*(1-p0) < 5`. -/
theorem C5_one_sample_proportion_test_se
    (sqrt normCdf normPpf : ℚ → ℚ)
    (p_hat p_hat2 : ℚ) (n : ℕ) (p0 alpha : ℚ) (tt : TestType) :
    (one_sample_proportion_test sqrt normCdf normPpf
        p_hat n p0 alpha tt).standard_error
      = sqrt (p0 * (1 - p0) / (n : ℚ)) ∧
    (one_sample_proportion_test sqrt normCdf normPpf
        p_hat n p0 alpha tt).test_statistic
      = (p_hat - p0) / sqrt (p0 * (1 - p0) / (n : ℚ)) ∧
    (one_sample_proportion_test sqrt normCdf normPpf
        p_hat n p0 alpha tt).standard_error
      = (one_sample_proportion_test sqrt normCdf normPpf
        p_hat2 n p0 alpha tt).standard_error ∧
    ((one_sample_proportion_test sqrt normCdf normPpf
        p_hat n p0 alpha tt).warning ≠ none
      ↔ ((n : ℚ) * p0 < 5 ∨ (n : ℚ) * (1 - p0) < 5)) := by
  refine ⟨rfl, rfl, rfl, ?_⟩
  show (if (n : ℚ) * p0 < 5 ∨ (n : ℚ) * (1 - p0) < 5 then
      some ("Warning: Normal approximation may not be appropriate. Both should be >= 5.")
    else none) ≠ none ↔ ((n : ℚ) * p0 < 5 ∨ (n : ℚ) * (1 - p0) < 5)
  by_cases h : (n : ℚ) * p0 < 5 ∨ (n : ℚ) * (1 - p0) < 5
  · simp [h]
  · simp [h]

/-- C8: for every dataset of length at least 2,
`sample_variance * (n-1) = population_variance * n`, both equal to the
sum of squared deviations from the mean. -/
theorem C8_variance_relation (sqrt : ℚ → ℚ) (data : List ℚ)
    (h : 2 ≤ data.length) :
    (calculate_dispersion sqrt data).sample_variance * ((data.length : ℚ) - 1)
        = (calculate_dispersion sqrt data).population_variance * (data.length : ℚ) ∧
    (calculate_dispersion sqrt data).sample_variance * ((data.length : ℚ) - 1)
        = (squaredDeviations data).sum := by
  have hn : (2 : ℚ) ≤ (data.length : ℚ) := by exact_mod_cast h
  have h1 : ((data.length : ℚ) - 1) ≠ 0 := by linarith
  have h2 : (data.length : ℚ) ≠ 0 := by linarith
  constructor
  · show (squaredDeviations data).sum / ((data.length : ℚ) - 1) * ((data.length : ℚ) - 1)
      = (squaredDeviations data).sum / (data.length : ℚ) * (data.length : ℚ)
    rw [div_mul_cancel₀ _ h1, div_mul_cancel₀ _ h2]
  · show (squaredDeviations data).sum / ((data.length : ℚ) - 1) * ((data.length : ℚ) - 1)
      = (squaredDeviations data).sum
    exact div_mul_cancel₀ _ h1

/-- Witness for C8 on the dataset `[1, 2, 3]`. -/
theorem C8_witness :
    2 ≤ [(1 : ℚ), 2, 3].length ∧
    ((calculate_dispersion (fun _ => 0) [(1 : ℚ), 2, 3]).sample_variance
          * (([(1 : ℚ), 2, 3].length : ℚ) - 1)
        = (calculate_dispersion (fun _ => 0) [(1 : ℚ), 2, 3]).population_variance
          * ([(1 : ℚ), 2, 3].length : ℚ) ∧
      (calculate_dispersion (fun _ => 0) [(1 : ℚ), 2, 3]).sample_variance
          * (([(1 : ℚ), 2, 3].length : ℚ) - 1)
        = (squaredDeviations [(1 : ℚ), 2, 3]).sum) :=
  ⟨by norm_num, C8_variance_relation (fun _ => 0) [(1 : ℚ), 2, 3] (by norm_num)⟩

/-- C6: for `sample_proportion` in `[0,1]` with nonnegative critical
value and standard error (as the normal quantile above the median and a
square root are), the clamped `proportion_confidence_interval` bounds
satisfy `0 ≤ lower ≤ upper ≤ 1`, and `confidence_interval` is the pair
of those bounds. -/
theorem C6_proportion_ci_bounds (sqrt normPpf : ℚ → ℚ)
    (p_hat : ℚ) (n : ℕ) (cl : ℚ)
    (hn : 0 < n) (hcl0 : 0 < cl) (hcl1 : cl < 1)
    (hp0 : 0 ≤ p_hat) (hp1 : p_hat ≤ 1)
    (hz : 0 ≤ normPpf (1 - (1 - cl) / 2))
    (hs : 0 ≤ sqrt (p_hat * (1 - p_hat) / (n : ℚ))) :
    0 ≤ (proportion_confidence_interval sqrt normPpf p_hat n cl).lower_bound ∧
    (proportion_confidence_interval sqrt normPpf p_hat n cl).lower_bound
      ≤ (proportion_confidence_interval sqrt normPpf p_hat n cl).upper_bound ∧
    (proportion_confidence_interval sqrt normPpf p_hat n cl).upper_bound ≤ 1 ∧
    (proportion_confidence_interval sqrt normPpf p_hat n cl).confidence_interval
      = ((proportion_confidence_interval sqrt normPpf p_hat n cl).lower_bound,
         (proportion_confidence_interval sqrt normPpf p_hat n cl).upper_bound) := by
  have hme : 0 ≤ normPpf (1 - (1 - cl) / 2) * sqrt (p_hat * (1 - p_hat) / (n : ℚ)) :=
    mul_nonneg hz hs
  refine ⟨le_max_left _ _, ?_, min_le_left _ _, rfl⟩
  show max 0 (p_hat - normPpf (1 - (1 - cl) / 2) * sqrt (p_hat * (1 - p_hat) / (n : ℚ)))
    ≤ min 1 (p_hat + normPpf (1 - (1 - cl) / 2) * sqrt (p_hat * (1 - p_hat) / (n : ℚ)))
  apply max_le
  · apply le_min
    · norm_num
    · linarith
  · apply le_min
    · linarith
    · linarith

/-- Witness for C6 at `p_hat = 3/5`, `n = 100`, `cl = 19/20`, with a
table pair taking value `2` for the quantile and `1/20` for the square
root. -/
theorem C6_witness :
    (0 < 100) ∧ (0 < (19/20 : ℚ)) ∧ ((19/20 : ℚ) < 1) ∧
    (0 ≤ (3/5 : ℚ)) ∧ ((3/5 : ℚ) ≤ 1) ∧
    (0 ≤ (fun _ => (2 : ℚ)) (1 - (1 - (19/20 : ℚ)) / 2)) ∧
    (0 ≤ (fun _ => (1/20 : ℚ)) ((3/5 : ℚ) * (1 - 3/5) / ((100 : ℕ) : ℚ))) ∧
    (0 ≤ (proportion_confidence_interval (fun _ => (1/20 : ℚ)) (fun _ => (2 : ℚ))
        (3/5) 100 (19/20)).lower_bound ∧
      (proportion_confidence_interval (fun _ => (1/20 : ℚ)) (fun _ => (2 : ℚ))
        (3/5) 100 (19/20)).lower_bound
        ≤ (proportion_confidence_interval (fun _ => (1/20 : ℚ)) (fun _ => (2 : ℚ))
        (3/5) 100 (19/20)).upper_bound ∧
      (proportion_confidence_interval (fun _ => (1/20 : ℚ)) (fun _ => (2 : ℚ))
        (3/5) 100 (19/20)).upper_bound ≤ 1 ∧
      (proportion_confidence_interval (fun _ => (1/20 : ℚ)) (fun _ => (2 : ℚ))
        (3/5) 100 (19/20)).confidence_interval
        = ((proportion_confidence_interval (fun _ => (1/20 : ℚ)) (fun _ => (2 : ℚ))
        (3/5) 100 (19/20)).lower_bound,
           (proportion_confidence_interval (fun _ => (1/20 : ℚ)) (fun _ => (2 : ℚ))
        (3/5) 100 (19/20)).upper_bound)) :=
  ⟨by norm_num, by norm_num, by norm_num, by norm_num, by norm_num,
    by norm_num, by norm_num,
    C6_proportion_ci_bounds (fun _ => (1/20 : ℚ)) (fun _ => (2 : ℚ))
      (3/5) 100 (19/20) (by norm_num) (by norm_num) (by norm_num)
      (by norm_num) (by norm_num) (by norm_num) (by norm_num)⟩

/-- C9: `sample_size_for_proportion` with no prior estimate uses
`p = 0.5`, returns `sample_size_exact = z^2 * p * (1-p) / ME^2` and
`sample_size_required = ceil(sample_size_exact)`; and whenever the
normal quantile at `0.975` lies in the bracket `[1.9599, 1.96]` (as
`scipy`'s value 1.95996... does), `margin_error = 0.03` with
`confidence_level = 0.95` and no estimate yields `n_required = 1068`. -/
theorem C9_sample_size_for_proportion_spec (normPpf : ℚ → ℚ)
    (me cl : ℚ)
    (hz1 : 19599/10000 ≤ normPpf (1 - (1 - 19/20) / 2))
    (hz2 : normPpf (1 - (1 - 19/20) / 2) ≤ 196/100) :
    (sample_size_for_proportion normPpf me cl none).estimated_proportion
        = 1/2 ∧
    (sample_size_for_proportion normPpf me cl none).conservative_estimate
        = true ∧
    (sample_size_for_proportion normPpf me cl none).sample_size_exact
        = (normPpf (1 - (1 - cl) / 2)) ^ 2 * (1/2) * (1 - 1/2) / me ^ 2 ∧
    (sample_size_for_proportion normPpf me cl none).sample_size_required
        = ⌈(sample_size_for_proportion normPpf me cl none).sample_size_exact⌉ ∧
    (sample_size_for_proportion normPpf (3/100) (19/20) none).sample_size_required
        = 1068 := by
  refine ⟨rfl, rfl, rfl, rfl, ?_⟩
  show ⌈(normPpf (1 - (1 - 19/20) / 2)) ^ 2 * (1/2) * (1 - (1:ℚ)/2) / (3/100) ^ 2⌉
    = (1068 : ℤ)
  rw [Int.ceil_eq_iff]
  have hq : (0 : ℚ) < (3/100) ^ 2 := by norm_num
  set z := normPpf (1 - (1 - 19/20) / 2) with hzdef
  have hz0 : (0 : ℚ) ≤ z := by linarith
  have hupper : z ^ 2 ≤ (196/100) * z := by nlinarith [mul_nonneg (by linarith : (0:ℚ) ≤ 196/100 - z) hz0]
  constructor
  · rw [lt_div_iff₀ hq]
    push_cast
    nlinarith [sq_nonneg (z - 19599/10000)]
  · rw [div_le_iff₀ hq]
    push_cast
    nlinarith [hupper]

/-- Witness for C9: a quantile table taking the value `1.96` at every
point. -/
theorem C9_witness :
    ((19599/10000 : ℚ) ≤ (fun _ => (196/100 : ℚ)) (1 - (1 - (19/20 : ℚ)) / 2)) ∧
    ((fun _ => (196/100 : ℚ)) (1 - (1 - (19/20 : ℚ)) / 2) ≤ 196/100) ∧
    ((sample_size_for_proportion (fun _ => (196/100 : ℚ)) (1/10) (9/10) none).estimated_proportion
        = 1/2 ∧
      (sample_size_for_proportion (fun _ => (196/100 : ℚ)) (1/10) (9/10) none).conservative_estimate
        = true ∧
      (sample_size_for_proportion (fun _ => (196/100 : ℚ)) (1/10) (9/10) none).sample_size_exact
        = ((fun _ => (196/100 : ℚ)) (1 - (1 - (9/10 : ℚ)) / 2)) ^ 2 * (1/2) * (1 - 1/2) / (1/10) ^ 2 ∧
      (sample_size_for_proportion (fun _ => (196/100 : ℚ)) (1/10) (9/10) none).sample_size_required
        = ⌈(sample_size_for_proportion (fun _ => (196/100 : ℚ)) (1/10) (9/10) none).sample_size_exact⌉ ∧
      (sample_size_for_proportion (fun _ => (196/100 : ℚ)) (3/100) (19/20) none).sample_size_required
        = 1068) :=
  ⟨by norm_num, by norm_num,
    C9_sample_size_for_proportion_spec (fun _ => (196/100 : ℚ)) (1/10) (9/10)
      (by norm_num) (by norm_num)⟩

/-- C3: for every two-tailed call of each of the four hypothesis tests,
`reject_null` agrees with `p_value < alpha`, provided the CDF used is
strictly monotone and maps the absolute critical value back to
`1 - alpha/2` (true of the scipy normal and t tables for
`alpha` in `(0,1)`). -/
theorem C3_two_tailed_consistency
    (sqrt normCdf normPpf : ℚ → ℚ) (tCdf tPpf : ℚ → ℚ → ℚ)
    (alpha : ℚ)
    (m : ℚ) (n : ℕ) (mu0 : ℚ) (pstd sstd : Option ℚ)
    (m1 : ℚ) (n1 : ℕ) (s1 m2 : ℚ) (n2 : ℕ) (s2 : ℚ) (eqv : Bool)
    (ph : ℚ) (np : ℕ) (p0 : ℚ)
    (x1 nn1 x2 nn2 : ℕ)
    (r1 : MeanTestResult)
    (hnmono : StrictMono normCdf)
    (hninv : normCdf |normPpf (1 - alpha / 2)| = 1 - alpha / 2)
    (htmono : ∀ d, StrictMono (fun x => tCdf x d))
    (htinv : ∀ d, tCdf |tPpf (1 - alpha / 2) d| d = 1 - alpha / 2) :
    (one_sample_mean_test sqrt normCdf normPpf tCdf tPpf
        m n mu0 alpha .twoTailed pstd sstd = .ok r1 →
      (r1.reject_null = true ↔ r1.p_value < alpha)) ∧
    ((two_sample_mean_test sqrt tCdf tPpf
        m1 n1 s1 m2 n2 s2 alpha .twoTailed eqv).reject_null = true
      ↔ (two_sample_mean_test sqrt tCdf tPpf
        m1 n1 s1 m2 n2 s2 alpha .twoTailed eqv).p_value < alpha) ∧
    ((one_sample_proportion_test sqrt normCdf normPpf
        ph np p0 alpha .twoTailed).reject_null = true
      ↔ (one_sample_proportion_test sqrt normCdf normPpf
        ph np p0 alpha .twoTailed).p_value < alpha) ∧
    ((two_sample_proportion_test sqrt normCdf normPpf
        x1 nn1 x2 nn2 alpha .twoTailed).reject_null = true
      ↔ (two_sample_proportion_test sqrt normCdf normPpf
        x1 nn1 x2 nn2 alpha .twoTailed).p_value < alpha) := by
  refine ⟨?_, ?_, ?_, ?_⟩
  · intro h
    cases pstd with
    | some sigma =>
      simp only [one_sample_mean_test, Except.ok.injEq] at h
      subst h
      simp only [decide_eq_true_eq]
      exact two_tailed_decision_iff normCdf _ _ alpha hnmono hninv
    | none =>
      cases sstd with
      | none => simp [one_sample_mean_test] at h
      | some s =>
        simp only [one_sample_mean_test, Except.ok.injEq] at h
        subst h
        simp only [decide_eq_true_eq]
        exact two_tailed_decision_iff (fun x => tCdf x ((n : ℚ) - 1)) _ _ alpha
          (htmono _) (htinv _)
  · simp only [two_sample_mean_test, decide_eq_true_eq]
    exact two_tailed_decision_iff (fun x => tCdf x _) _ _ alpha
      (htmono _) (htinv _)
  · simp only [one_sample_proportion_test, decide_eq_true_eq]
    exact two_tailed_decision_iff normCdf _ _ alpha hnmono hninv
  · simp only [two_sample_proportion_test, decide_eq_true_eq]
    exact two_tailed_decision_iff normCdf _ _ alpha hnmono hninv

/-- Witness for C3 at `alpha = 1/2` with identity tables (which are
strictly monotone and self-inverse) on concrete two-tailed calls of all
four tests. -/
theorem C3_witness :
    StrictMono (fun x : ℚ => x) ∧
    ((fun x : ℚ => x) |(fun x : ℚ => x) (1 - (1/2 : ℚ) / 2)| = 1 - (1/2 : ℚ) / 2) ∧
    (∀ d : ℚ, StrictMono (fun x : ℚ => (fun (x _ : ℚ) => x) x d)) ∧
    (∀ d : ℚ, (fun (x _ : ℚ) => x) |(fun (q _ : ℚ) => q) (1 - (1/2 : ℚ) / 2) d| d
      = 1 - (1/2 : ℚ) / 2) ∧
    ((one_sample_mean_test (fun _ => 1) (fun x => x) (fun x => x)
        (fun x _ => x) (fun q _ => q) 1 1 0 (1/2) .twoTailed (some 1) none
        = .ok { test_statistic := 1, critical_values := [-(3/4), 3/4],
                p_value := 0, alpha := 1/2, reject_null := true,
                distribution_type := .z, degrees_of_freedom := none,
                standard_error := 1, test_type := .twoTailed } →
      (({ test_statistic := 1, critical_values := [-(3/4), 3/4],
          p_value := 0, alpha := 1/2, reject_null := true,
          distribution_type := .z, degrees_of_freedom := none,
          standard_error := 1, test_type := .twoTailed } : MeanTestResult).reject_null = true
        ↔ ({ test_statistic := 1, critical_values := [-(3/4), 3/4],
             p_value := 0, alpha := 1/2, reject_null := true,
             distribution_type := .z, degrees_of_freedom := none,
             standard_error := 1, test_type := .twoTailed } : MeanTestResult).p_value < 1/2)) ∧
    ((two_sample_mean_test (fun _ => 1) (fun x _ => x) (fun q _ => q)
        1 2 1 0 2 1 (1/2) .twoTailed true).reject_null = true
      ↔ (two_sample_mean_test (fun _ => 1) (fun x _ => x) (fun q _ => q)
        1 2 1 0 2 1 (1/2) .twoTailed true).p_value < 1/2) ∧
    ((one_sample_proportion_test (fun _ => 1) (fun x => x) (fun x => x)
        1 1 (1/2) (1/2) .twoTailed).reject_null = true
      ↔ (one_sample_proportion_test (fun _ => 1) (fun x => x) (fun x => x)
        1 1 (1/2) (1/2) .twoTailed).p_value < 1/2) ∧
    ((two_sample_proportion_test (fun _ => 1) (fun x => x) (fun x => x)
        1 1 0 1 (1/2) .twoTailed).reject_null = true
      ↔ (two_sample_proportion_test (fun _ => 1) (fun x => x) (fun x => x)
        1 1 0 1 (1/2) .twoTailed).p_value < 1/2)) :=
  ⟨fun _ _ h => h, by norm_num, fun _ => fun _ _ h => h, fun _ => by norm_num,
    C3_two_tailed_consistency (fun _ => 1) (fun x => x) (fun x => x)
      (fun x _ => x) (fun q _ => q) (1/2)
      1 1 0 (some 1) none 1 2 1 0 2 1 true 1 1 (1/2) 1 1 0 1
      { test_statistic := 1, critical_values := [-(3/4), 3/4],
        p_value := 0, alpha := 1/2, reject_null := true,
        distribution_type := .z, degrees_of_freedom := none,
        standard_error := 1, test_type := .twoTailed }
      (fun _ _ h => h) (by norm_num) (fun _ => fun _ _ h => h) (fun _ => by norm_num)⟩

/-- C10: when both `population_std` and `sample_std` are supplied,
`mean_confidence_interval` and `one_sample_mean_test` do not fail:
`population_std` takes precedence, the z-distribution is used and
`sample_std` is ignored (the result is identical whatever `sample_std`
is); the only failing combination is both absent. -/
theorem C10_population_std_precedence
    (sqrt normCdf normPpf : ℚ → ℚ) (tCdf tPpf : ℚ → ℚ → ℚ)
    (m : ℚ) (n : ℕ) (cl mu0 alpha sigma s : ℚ) (sstd2 : Option ℚ)
    (tt : TestType) :
    (∃ r, mean_confidence_interval sqrt normPpf tPpf m n cl
        (some sigma) (some s) = .ok r ∧ r.distribution_type = .z) ∧
    mean_confidence_interval sqrt normPpf tPpf m n cl (some sigma) (some s)
      = mean_confidence_interval sqrt normPpf tPpf m n cl (some sigma) sstd2 ∧
    mean_confidence_interval sqrt normPpf tPpf m n cl none none
      = .error ("Either population_std or sample_std must be provided") ∧
    (∃ r, one_sample_mean_test sqrt normCdf normPpf tCdf tPpf
        m n mu0 alpha tt (some sigma) (some s) = .ok r ∧
      r.distribution_type = .z) ∧
    one_sample_mean_test sqrt normCdf normPpf tCdf tPpf
        m n mu0 alpha tt (some sigma) (some s)
      = one_sample_mean_test sqrt normCdf normPpf tCdf tPpf
        m n mu0 alpha tt (some sigma) sstd2 ∧
    one_sample_mean_test sqrt normCdf normPpf tCdf tPpf
        m n mu0 alpha tt none none
      = .error ("Either population_std or sample_std must be provided") :=
  ⟨⟨_, rfl, rfl⟩, rfl, rfl, ⟨_, rfl, rfl⟩, rfl, rfl⟩
